import Mathlib

/-!
Verification of the `update-issue-status` GitHub Action
(`src/update-issue-status.ts`, `src/main.ts`).

The workflow reads four configuration inputs, gates on the triggering
item's assignees, parses the project URL with the regex

  /^(?:https:\/\/)?github\.com\/(?<ownerType>orgs|users)\/(?<ownerName>[^/]+)\/projects\/(?<projectNumber>\d+)/

then issues two GraphQL read queries and one mutation.  We embed the
whole workflow as a pure function from (configuration, event payload,
remote-response environment) to (list of remote calls issued, outcome).
The remote GraphQL endpoint is modelled as an environment `Env` giving
the responses the code would receive; the trace of calls records what
the code sends.
-/

/-- A JavaScript-level run-time error escaping `updateIssueStatus`.
`typeError` stands for a built-in TypeError (property access on
`undefined`, `Object.keys(undefined)` and the like); the other two are
the `throw new Error(...)` sites of the source, carrying the data
interpolated into their messages. -/
inductive RunError where
  /-- line 77: "Invalid project URL: ..." carrying the offending input. -/
  | invalidProjectUrl (url : String)
  /-- line 185: "Unsupported ownerType: ..." carrying the offending
  token (`none` models the interpolated `undefined`). -/
  | unsupportedOwnerType (tok : Option String)
  /-- a built-in TypeError with the given description. -/
  | typeError (msg : String)
deriving DecidableEq, Repr

/-- The named capture groups of a successful match of the `urlParse`
regex (source line 6): `ownerType`, `ownerName`, `projectNumber`, all
as the raw matched substrings. -/
structure UrlGroups where
  ownerType : String
  ownerName : String
  projectNumber : String
deriving DecidableEq, Repr

/-- Match a literal character sequence at the head of the input,
returning the remaining input on success (the semantics of a literal
run inside the regex). -/
def dropLit : List Char → List Char → Option (List Char)
  | [], cs => some cs
  | _ :: _, [] => none
  | p :: ps, c :: cs => if c = p then dropLit ps cs else none

/-- The part of the `urlParse` regex after the owner-type token:
`\/(?<ownerName>[^/]+)\/projects\/(?<projectNumber>\d+)`.  `[^/]+` is
greedy and cannot cross a `/`, so it deterministically captures the
maximal run of non-slash characters; `\d+` is greedy with nothing
after it, so it captures the maximal digit run.  There is no `$`
anchor: trailing characters are ignored. -/
def matchOwnerTail (cs : List Char) : Option (String × String) :=
  (dropLit ['/'] cs).bind fun cs1 =>
    if (cs1.takeWhile (fun c => c ≠ '/')).isEmpty then none
    else
      (dropLit "/projects/".data (cs1.dropWhile (fun c => c ≠ '/'))).bind fun cs2 =>
        if (cs2.takeWhile Char.isDigit).isEmpty then none
        else some (String.mk (cs1.takeWhile (fun c => c ≠ '/')), String.mk (cs2.takeWhile Char.isDigit))

/-- One branch of the alternation `(?<ownerType>orgs|users)`: match
the token literally, then the rest of the regex; the capture records
the token. -/
def tryTok (cs1 : List Char) (tok : String) : Option UrlGroups :=
  (dropLit tok.data cs1).bind fun cs2 =>
    (matchOwnerTail cs2).bind fun nd => some ⟨tok, nd.1, nd.2⟩

/-- The `urlParse` regex from `github.com/` on: the literal, then the
alternation `(?<ownerType>orgs|users)` (tried left to right with
backtracking), then `matchOwnerTail`. -/
def matchFromGithub (cs : List Char) : Option UrlGroups :=
  (dropLit "github.com/".data cs).bind fun cs1 =>
    (tryTok cs1 "orgs").orElse (fun _ => tryTok cs1 "users")

/-- `projectUrl.match(urlParse)` (source line 74): the regex is
anchored at the start by `^`; the scheme group `(?:https:\/\/)?` is
optional, and if consuming it lets the rest fail the engine backtracks
to the empty alternative. -/
def urlParseMatch (s : String) : Option UrlGroups :=
  ((dropLit "https://".data s.data).bind fun rest => matchFromGithub rest).orElse
    (fun _ => matchFromGithub s.data)

/-- `parseInt(digits, 10)` on a non-empty decimal digit string
(source line 83; on a match the group is a non-empty digit run). -/
def parseIntDec (s : String) : Nat :=
  s.data.foldl (fun n c => n * 10 + (c.toNat - 48)) 0

/-- `mustGetOwnerTypeQuery` (source lines 181-189): `'orgs'` maps to
the query root `'organization'`, `'users'` to `'user'`, anything else
(including `undefined`, modelled as `none`) throws the
"Unsupported ownerType" error. -/
def mustGetOwnerTypeQuery : Option String → Except RunError String
  | some t =>
    if t = "orgs" then .ok "organization"
    else if t = "users" then .ok "user"
    else .error (.unsupportedOwnerType (some t))
  | none => .error (.unsupportedOwnerType none)

/-- `projectV2 { id }` inside the project-id query response. -/
structure ProjectV2Ref where
  id : String
deriving DecidableEq, Repr

/-- The object under the `organization` / `user` key of the
project-id query response. -/
structure OwnerProject where
  projectV2 : ProjectV2Ref
deriving DecidableEq, Repr

/-- `ProjectNodeIDResponse` (source lines 9-21): either key may be
absent depending on which query root was used. -/
structure ProjectNodeIDResponse where
  organization : Option OwnerProject
  user : Option OwnerProject
deriving DecidableEq, Repr

/-- The dynamic key access `idResp[ownerTypeQuery]` (source line 125):
looks the response up under the given key, `none` for any key that is
not a field of the response object. -/
def ProjectNodeIDResponse.get (r : ProjectNodeIDResponse) (key : String) : Option OwnerProject :=
  if key = "organization" then r.organization
  else if key = "user" then r.user
  else none

/-- `field { databaseId }` of a single-select field value. -/
structure FieldRef where
  databaseId : String
deriving DecidableEq, Repr

/-- `fieldValueByName` of a project item: the single-select field
reference and the value's display name. -/
structure FieldValueByName where
  field : FieldRef
  name : String
deriving DecidableEq, Repr

/-- One node of the `projectItems` connection. -/
structure ProjectItemNode where
  fieldValueByName : FieldValueByName
deriving DecidableEq, Repr

/-- The `projectItems` connection of the status query response. -/
structure ProjectItems where
  nodes : List ProjectItemNode
deriving DecidableEq, Repr

/-- `IssueStatusResponse` (source lines 23-36). -/
structure IssueStatusResponse where
  projectItems : ProjectItems
deriving DecidableEq, Repr

/-- The variables object passed to the mutation (source lines 166-173):
`{input: {fieldId, contentId, projectId, issueStatus}}`.  `contentId`
is `issue?.node_id` and `projectId` is
`idResp[ownerTypeQuery]?.projectV2.id`, each possibly `undefined`,
hence `Option`.  Note the value slot carries `issueStatus` — the
status read back from the board — not the `new-status` input. -/
structure MutInput where
  fieldId : String
  contentId : Option String
  projectId : Option String
  issueStatus : String
deriving DecidableEq, Repr

/-- `projectV2Item { id fieldValueByName ... }` of the mutation
response. -/
structure ProjectV2Item where
  id : String
  fieldValueByName : FieldValueByName
deriving DecidableEq, Repr

/-- The payload under `updateProjectV2ItemFieldValue`. -/
structure UpdateFieldValuePayload where
  projectV2Item : ProjectV2Item
deriving DecidableEq, Repr

/-- `UpdateIssueStatusResponse` (source lines 38-50). -/
structure UpdateIssueStatusResponse where
  updateProjectV2ItemFieldValue : UpdateFieldValuePayload
deriving DecidableEq, Repr

/-- An issue or pull-request record of the webhook payload, with the
fields the code touches.  `assignees` is `Option`al: a record may lack
the field altogether (then `payload.issue?.assignees` is
`undefined`). -/
structure IssueRecord where
  number : Nat
  node_id : String
  assignees : Option (List String)
deriving DecidableEq, Repr

/-- `github.context.payload`, restricted to the fields the code reads:
`issue`, `pull_request`, and `repository?.owner.login`. -/
structure Payload where
  issue : Option IssueRecord
  pull_request : Option IssueRecord
  repositoryOwnerLogin : Option String
deriving DecidableEq, Repr

/-- The four required action inputs (source lines 53-56).  `newStatus`
is read from the `new-status` input at line 55 and is never used again
in the source. -/
structure Config where
  projectUrl : String
  ghToken : String
  newStatus : String
  openStatus : String
deriving DecidableEq, Repr

/-- One remote GraphQL call as issued by the code: the project-id
query with its variables, the status query (it takes no variables),
or the mutation with its variables object. -/
inductive Call where
  | projectIdQuery (ownerTypeQuery projectOwnerName : String) (projectNumber : Nat)
  | statusQuery
  | mutation (input : MutInput)
deriving DecidableEq, Repr

/-- The remote endpoint, modelled as the responses it returns:
`idResp` as a function of the project-id query's variables, the status
query response, and the mutation response as a function of the
mutation variables. -/
structure Env where
  idResp : String → String → Nat → ProjectNodeIDResponse
  issueResp : IssueStatusResponse
  updResp : MutInput → UpdateIssueStatusResponse

/-- How one invocation ends when no error is thrown: one of the two
informational skips (each logs the item's number, `issue?.number`), or
the `fieldName` output set from the mutation response (line 177). -/
inductive Outcome where
  | skippedAssigned (issueNumber : Option Nat)
  | skippedNotOpen (issueNumber : Option Nat)
  | output (fieldName : String)
deriving DecidableEq, Repr

instance {ε α : Type} [DecidableEq ε] [DecidableEq α] : DecidableEq (Except ε α) := fun a b =>
  match a, b with
  | .error e, .error e' =>
    if h : e = e' then .isTrue (congrArg Except.error h)
    else .isFalse (fun hh => h (Except.error.inj hh))
  | .ok x, .ok y =>
    if h : x = y then .isTrue (congrArg Except.ok h)
    else .isFalse (fun hh => h (Except.ok.inj hh))
  | .error _, .ok _ => .isFalse (fun hh => Except.noConfusion hh)
  | .ok _, .error _ => .isFalse (fun hh => Except.noConfusion hh)

/-- The observable result of one invocation: the remote calls issued,
in order, and either an error or a successful outcome. -/
structure RunResult where
  calls : List Call
  result : Except RunError Outcome
deriving Repr, DecidableEq

/-- The mutation variables the code assembles when the open-status
gate passes (source lines 125-128 and 166-173): `fieldId` and
`issueStatus` from the first node of the status query response,
`contentId` from `issue?.node_id`, `projectId` from the project-id
query response under the resolved owner-type key.  The source's local
consts (`projectOwnerName`, `projectNumber`, `projectId`, `contentId`,
`issueStatus`, `fieldId`) are inlined at their use sites. -/
def mutArgs (issue : Option IssueRecord) (env : Env) (ownerTypeQuery : String) (g : UrlGroups)
    (node : ProjectItemNode) : MutInput :=
  ⟨node.fieldValueByName.field.databaseId,
   issue.map IssueRecord.node_id,
   (ProjectNodeIDResponse.get (env.idResp ownerTypeQuery g.ownerName (parseIntDec g.projectNumber))
      ownerTypeQuery).map (fun p => p.projectV2.id),
   node.fieldValueByName.name⟩

/-- The part of `updateIssueStatus` after the assignee gate (source
lines 74-178): URL parse, owner-type resolution, the two read queries,
the open-status gate, the mutation, the output.  `issue` is the
already-computed `payload.issue ?? payload.pull_request`. -/
def afterGate (cfg : Config) (issue : Option IssueRecord) (env : Env) : RunResult :=
  match urlParseMatch cfg.projectUrl with
  | none => ⟨[], .error (.invalidProjectUrl cfg.projectUrl)⟩
  | some g =>
    match mustGetOwnerTypeQuery (some g.ownerType) with
    | .error e => ⟨[], .error e⟩
    | .ok ownerTypeQuery =>
      match env.issueResp.projectItems.nodes.head? with
      | none =>
        ⟨[Call.projectIdQuery ownerTypeQuery g.ownerName (parseIntDec g.projectNumber), .statusQuery],
         .error (.typeError "cannot read fieldValueByName of undefined")⟩
      | some node =>
        if node.fieldValueByName.name ≠ cfg.openStatus then
          ⟨[Call.projectIdQuery ownerTypeQuery g.ownerName (parseIntDec g.projectNumber), .statusQuery],
           .ok (.skippedNotOpen (issue.map IssueRecord.number))⟩
        else
          ⟨[Call.projectIdQuery ownerTypeQuery g.ownerName (parseIntDec g.projectNumber), .statusQuery,
            .mutation (mutArgs issue env ownerTypeQuery g node)],
           .ok (.output (env.updResp (mutArgs issue env ownerTypeQuery g node)).updateProjectV2ItemFieldValue.projectV2Item.fieldValueByName.name)⟩

/-- `updateIssueStatus` (source lines 52-179) as a pure function.
Lines 60-68: `issue = payload.issue ?? payload.pull_request`;
`issueAssignees = payload.issue?.assignees` (the issue record only);
then `Object.keys(issueAssignees)` — a TypeError when `issueAssignees`
is `undefined` — and the skip fires when that key set is empty. -/
def updateIssueStatus (cfg : Config) (payload : Payload) (env : Env) : RunResult :=
  match payload.issue.bind IssueRecord.assignees with
  | none => ⟨[], .error (.typeError "Object.keys of undefined")⟩
  | some assignees =>
    if assignees.length = 0 then
      ⟨[], .ok (.skippedAssigned ((payload.issue <|> payload.pull_request).map IssueRecord.number))⟩
    else
      afterGate cfg (payload.issue <|> payload.pull_request) env

/-! Helper lemmas about the regex model. -/

lemma data_append (s t : String) : (s ++ t).data = s.data ++ t.data := rfl

lemma dropLit_self_append (p ys : List Char) : dropLit p (p ++ ys) = some ys := by
  induction p with
  | nil => rfl
  | cons a as ih => simp [dropLit, ih]

lemma takeWhile_append_all (p : Char → Bool) (xs ys : List Char)
    (hx : ∀ c ∈ xs, p c = true) :
    (xs ++ ys).takeWhile p = xs ++ ys.takeWhile p := by
  induction xs with
  | nil => rfl
  | cons a as ih =>
    have ha : p a = true := hx a (List.mem_cons_self a as)
    have ih2 := ih (fun c hc => hx c (List.mem_cons_of_mem a hc))
    simp [List.takeWhile_cons, ha, ih2]

lemma dropWhile_append_all (p : Char → Bool) (xs ys : List Char)
    (hx : ∀ c ∈ xs, p c = true) :
    (xs ++ ys).dropWhile p = ys.dropWhile p := by
  induction xs with
  | nil => rfl
  | cons a as ih =>
    have ha : p a = true := hx a (List.mem_cons_self a as)
    have ih2 := ih (fun c hc => hx c (List.mem_cons_of_mem a hc))
    simp [List.dropWhile_cons, ha, ih2]

lemma dropLit_slash (rest : List Char) : dropLit ['/'] ('/' :: rest) = some rest := by
  simp [dropLit]

lemma orElseNone {α : Type} (f : Unit → Option α) : Option.orElse none f = f () := rfl

lemma orElseSome {α : Type} (a : α) (f : Unit → Option α) : Option.orElse (some a) f = some a := rfl

lemma matchOwnerTail_complete (name ds trail : List Char)
    (hname : name ≠ [])
    (hnameSlash : ∀ c ∈ name, c ≠ '/')
    (hds : ds ≠ [])
    (hdsDigit : ∀ c ∈ ds, c.isDigit = true) :
    matchOwnerTail ('/' :: (name ++ "/projects/".data ++ ds ++ trail)) =
      some (String.mk name, String.mk (ds ++ trail.takeWhile Char.isDigit)) := by
  have hp : ∀ c ∈ name, (fun c => decide (c ≠ '/')) c = true := by
    intro c hc
    simpa using hnameSlash c hc
  have hsplit : "/projects/".data ++ ds ++ trail = '/' :: ("projects/".data ++ (ds ++ trail)) := by
    simp [show "/projects/".data = '/' :: "projects/".data from rfl]
  have htake : (name ++ "/projects/".data ++ ds ++ trail).takeWhile (fun c => decide (c ≠ '/')) = name := by
    rw [List.append_assoc, List.append_assoc, ← List.append_assoc "/projects/".data,
      takeWhile_append_all _ _ _ hp, hsplit]
    simp [List.takeWhile_cons]
  have hdrop : (name ++ "/projects/".data ++ ds ++ trail).dropWhile (fun c => decide (c ≠ '/')) =
      "/projects/".data ++ (ds ++ trail) := by
    rw [List.append_assoc, List.append_assoc, ← List.append_assoc "/projects/".data,
      dropWhile_append_all _ _ _ hp, hsplit]
    simp [List.dropWhile_cons]
  have hdig : (ds ++ trail).takeWhile Char.isDigit = ds ++ trail.takeWhile Char.isDigit :=
    takeWhile_append_all _ _ _ hdsDigit
  have hne : ds ++ trail.takeWhile Char.isDigit ≠ [] := by
    intro h
    exact hds (List.append_eq_nil.mp h).1
  have hc1 : ¬(name.isEmpty = true) := by
    simp [List.isEmpty_iff, hname]
  have hc2 : ¬((ds ++ trail.takeWhile Char.isDigit).isEmpty = true) := by
    simp [List.isEmpty_iff, hne]
  unfold matchOwnerTail
  rw [dropLit_slash]
  simp only [Option.some_bind]
  rw [htake, hdrop, if_neg hc1, dropLit_self_append]
  simp only [Option.some_bind]
  rw [hdig, if_neg hc2]

lemma tryTok_self (tok : String) (cs2 : List Char) :
    tryTok (tok.data ++ cs2) tok =
      (matchOwnerTail cs2).bind fun nd => some ⟨tok, nd.1, nd.2⟩ := by
  unfold tryTok
  rw [dropLit_self_append]
  simp only [Option.some_bind]

lemma tryTok_users_not_orgs (cs2 : List Char) :
    tryTok ("users".data ++ cs2) "orgs" = none := by
  unfold tryTok
  rw [show "users".data ++ cs2 = 'u' :: ("sers".data ++ cs2) from rfl,
    show "orgs".data = 'o' :: "rgs".data from rfl]
  simp [dropLit]

lemma matchFromGithub_complete (tok : String) (name ds trail : List Char)
    (htok : tok = "orgs" ∨ tok = "users")
    (hname : name ≠ [])
    (hnameSlash : ∀ c ∈ name, c ≠ '/')
    (hds : ds ≠ [])
    (hdsDigit : ∀ c ∈ ds, c.isDigit = true) :
    matchFromGithub ("github.com/".data ++ (tok.data ++ '/' :: (name ++ "/projects/".data ++ ds ++ trail))) =
      some ⟨tok, String.mk name, String.mk (ds ++ trail.takeWhile Char.isDigit)⟩ := by
  have hmot := matchOwnerTail_complete name ds trail hname hnameSlash hds hdsDigit
  unfold matchFromGithub
  rw [dropLit_self_append]
  simp only [Option.some_bind]
  rcases htok with h | h <;> subst h
  · rw [tryTok_self, hmot]
    simp only [Option.some_bind]
    rw [orElseSome]
  · rw [tryTok_users_not_orgs, orElseNone]
    simp only []
    rw [tryTok_self, hmot]
    simp only [Option.some_bind]

lemma urlParseMatch_complete (scheme : Bool) (tok name ds trail : String)
    (htok : tok = "orgs" ∨ tok = "users")
    (hname : name.data ≠ [])
    (hnameSlash : ∀ c ∈ name.data, c ≠ '/')
    (hds : ds.data ≠ [])
    (hdsDigit : ∀ c ∈ ds.data, c.isDigit = true) :
    urlParseMatch ((if scheme then "https://" else "") ++ "github.com/" ++ tok ++ "/" ++ name ++ "/projects/" ++ ds ++ trail) =
      some ⟨tok, name, String.mk (ds.data ++ trail.data.takeWhile Char.isDigit)⟩ := by
  have hmfg := matchFromGithub_complete tok name.data ds.data trail.data htok hname hnameSlash hds hdsDigit
  have hgrp : (⟨tok, String.mk name.data, String.mk (ds.data ++ trail.data.takeWhile Char.isDigit)⟩ : UrlGroups) =
      ⟨tok, name, String.mk (ds.data ++ trail.data.takeWhile Char.isDigit)⟩ := rfl
  cases scheme
  · have hdata : ((if false then "https://" else "") ++ "github.com/" ++ tok ++ "/" ++ name ++ "/projects/" ++ ds ++ trail).data =
        "github.com/".data ++ (tok.data ++ '/' :: (name.data ++ "/projects/".data ++ ds.data ++ trail.data)) := by
      simp [data_append, List.append_assoc, show "/".data = ['/'] from rfl,
        show ("" : String).data = [] from rfl]
    have hnone : dropLit "https://".data ("github.com/".data ++ (tok.data ++ '/' :: (name.data ++ "/projects/".data ++ ds.data ++ trail.data))) = none := by
      rw [show "github.com/".data ++ (tok.data ++ '/' :: (name.data ++ "/projects/".data ++ ds.data ++ trail.data)) =
          'g' :: ("ithub.com/".data ++ (tok.data ++ '/' :: (name.data ++ "/projects/".data ++ ds.data ++ trail.data))) from rfl,
        show "https://".data = 'h' :: "ttps://".data from rfl]
      simp [dropLit]
    unfold urlParseMatch
    rw [hdata, hnone, Option.none_bind, orElseNone]
    simp only []
    rw [hmfg, hgrp]
  · have hdata : ((if true then "https://" else "") ++ "github.com/" ++ tok ++ "/" ++ name ++ "/projects/" ++ ds ++ trail).data =
        "https://".data ++ ("github.com/".data ++ (tok.data ++ '/' :: (name.data ++ "/projects/".data ++ ds.data ++ trail.data))) := by
      simp [data_append, List.append_assoc, show "/".data = ['/'] from rfl]
    unfold urlParseMatch
    rw [hdata, dropLit_self_append]
    simp only [Option.some_bind]
    rw [hmfg, orElseSome, hgrp]

/-! Helper lemmas about the workflow's branches. -/

lemma updateIssueStatus_typeErr (cfg : Config) (payload : Payload) (env : Env)
    (h : payload.issue.bind IssueRecord.assignees = none) :
    updateIssueStatus cfg payload env = ⟨[], .error (.typeError "Object.keys of undefined")⟩ := by
  unfold updateIssueStatus
  rw [h]

lemma updateIssueStatus_skipsEmpty (cfg : Config) (payload : Payload) (env : Env)
    (i : IssueRecord) (hi : payload.issue = some i) (ha : i.assignees = some []) :
    updateIssueStatus cfg payload env = ⟨[], .ok (.skippedAssigned (some i.number))⟩ := by
  unfold updateIssueStatus
  rw [hi]
  simp only [Option.some_bind]
  rw [ha]
  simp only [List.length_nil, if_pos rfl]
  rfl

lemma updateIssueStatus_proceeds (cfg : Config) (payload : Payload) (env : Env)
    (i : IssueRecord) (aList : List String)
    (hi : payload.issue = some i) (ha : i.assignees = some aList) (hne : aList ≠ []) :
    updateIssueStatus cfg payload env = afterGate cfg (some i) env := by
  unfold updateIssueStatus
  rw [hi]
  simp only [Option.some_bind]
  rw [ha]
  simp only []
  rw [if_neg (by simp [hne])]
  rfl

lemma afterGate_badUrl (cfg : Config) (issue : Option IssueRecord) (env : Env)
    (h : urlParseMatch cfg.projectUrl = none) :
    afterGate cfg issue env = ⟨[], .error (.invalidProjectUrl cfg.projectUrl)⟩ := by
  unfold afterGate
  rw [h]

lemma afterGate_badOwner (cfg : Config) (issue : Option IssueRecord) (env : Env)
    (g : UrlGroups) (e : RunError)
    (hurl : urlParseMatch cfg.projectUrl = some g)
    (hq : mustGetOwnerTypeQuery (some g.ownerType) = .error e) :
    afterGate cfg issue env = ⟨[], .error e⟩ := by
  unfold afterGate
  rw [hurl]
  simp only []
  rw [hq]

lemma afterGate_noNode (cfg : Config) (issue : Option IssueRecord) (env : Env)
    (g : UrlGroups) (q : String)
    (hurl : urlParseMatch cfg.projectUrl = some g)
    (hq : mustGetOwnerTypeQuery (some g.ownerType) = .ok q)
    (hn : env.issueResp.projectItems.nodes.head? = none) :
    afterGate cfg issue env =
      ⟨[Call.projectIdQuery q g.ownerName (parseIntDec g.projectNumber), .statusQuery],
       .error (.typeError "cannot read fieldValueByName of undefined")⟩ := by
  unfold afterGate
  rw [hurl]
  simp only []
  rw [hq]
  simp only []
  rw [hn]

lemma afterGate_skipNotOpen (cfg : Config) (issue : Option IssueRecord) (env : Env)
    (g : UrlGroups) (q : String) (node : ProjectItemNode)
    (hurl : urlParseMatch cfg.projectUrl = some g)
    (hq : mustGetOwnerTypeQuery (some g.ownerType) = .ok q)
    (hn : env.issueResp.projectItems.nodes.head? = some node)
    (hs : node.fieldValueByName.name ≠ cfg.openStatus) :
    afterGate cfg issue env =
      ⟨[Call.projectIdQuery q g.ownerName (parseIntDec g.projectNumber), .statusQuery],
       .ok (.skippedNotOpen (issue.map IssueRecord.number))⟩ := by
  unfold afterGate
  rw [hurl]
  simp only []
  rw [hq]
  simp only []
  rw [hn]
  simp only []
  rw [if_pos hs]

lemma afterGate_mutates (cfg : Config) (issue : Option IssueRecord) (env : Env)
    (g : UrlGroups) (q : String) (node : ProjectItemNode)
    (hurl : urlParseMatch cfg.projectUrl = some g)
    (hq : mustGetOwnerTypeQuery (some g.ownerType) = .ok q)
    (hn : env.issueResp.projectItems.nodes.head? = some node)
    (hs : node.fieldValueByName.name = cfg.openStatus) :
    afterGate cfg issue env =
      ⟨[Call.projectIdQuery q g.ownerName (parseIntDec g.projectNumber), .statusQuery,
        .mutation (mutArgs issue env q g node)],
       .ok (.output (env.updResp (mutArgs issue env q g node)).updateProjectV2ItemFieldValue.projectV2Item.fieldValueByName.name)⟩ := by
  unfold afterGate
  rw [hurl]
  simp only []
  rw [hq]
  simp only []
  rw [hn]
  simp only []
  rw [if_neg (by simp [hs])]

/-! The claims. -/

/-- Claim C7: the owner-type token `"orgs"` resolves to the
Organization owner type (GraphQL query root `organization`), `"users"`
to the User owner type (query root `user`), and any other token —
including an absent capture, modelled as `none` — fails with the
"Unsupported ownerType" error naming the offending token. -/
theorem ownerType_token_mapping :
    mustGetOwnerTypeQuery (some "orgs") = .ok "organization" ∧
    mustGetOwnerTypeQuery (some "users") = .ok "user" ∧
    ∀ t : Option String, t ≠ some "orgs" → t ≠ some "users" →
      mustGetOwnerTypeQuery t = .error (.unsupportedOwnerType t) := by
  refine ⟨rfl, rfl, ?_⟩
  intro t h1 h2
  cases t with
  | none => rfl
  | some s =>
    unfold mustGetOwnerTypeQuery
    simp only []
    rw [if_neg (fun hh => h1 (by rw [hh])), if_neg (fun hh => h2 (by rw [hh]))]

/-- Witness for C7 at the concrete token `"gitlab"`. -/
theorem ownerType_token_mapping_witness :
    (some "gitlab" : Option String) ≠ some "orgs" ∧
    (some "gitlab" : Option String) ≠ some "users" ∧
    mustGetOwnerTypeQuery (some "gitlab") = .error (.unsupportedOwnerType (some "gitlab")) :=
  ⟨by decide, by decide, ownerType_token_mapping.2.2 (some "gitlab") (by decide) (by decide)⟩

/-- Claim C9: the eligibility gate reads the assignee set only from
the payload's `issue` record (`payload.issue?.assignees`), never from
`pull_request`; whenever the payload has no issue record, or an issue
record without an `assignees` field, `Object.keys` is applied to
`undefined` and the invocation throws a TypeError with no call made
and no gate decision taken — whatever `pull_request` holds. -/
theorem gate_reads_issue_only_typeError (cfg : Config) (payload : Payload) (env : Env)
    (h : payload.issue = none ∨ ∃ i, payload.issue = some i ∧ i.assignees = none) :
    updateIssueStatus cfg payload env =
      ⟨[], .error (.typeError "Object.keys of undefined")⟩ := by
  apply updateIssueStatus_typeErr
  rcases h with h | ⟨i, hi, ha⟩
  · rw [h]
    rfl
  · rw [hi]
    simp only [Option.some_bind]
    exact ha

/-- Witness for C9: a payload carrying a `pull_request` with a
non-empty assignee list but no `issue` record still throws, showing
the pull request's assignees are never consulted. -/
theorem gate_reads_issue_only_typeError_witness :
    ((⟨none, some ⟨7, "PR7", some ["bob"]⟩, some "acme"⟩ : Payload).issue = none ∨
      ∃ i, (⟨none, some ⟨7, "PR7", some ["bob"]⟩, some "acme"⟩ : Payload).issue = some i ∧
        i.assignees = none) ∧
    updateIssueStatus ⟨"https://github.com/orgs/acme/projects/7", "tok", "In Progress", "Todo"⟩
        ⟨none, some ⟨7, "PR7", some ["bob"]⟩, some "acme"⟩
        ⟨fun _ _ _ => ⟨none, none⟩, ⟨⟨[]⟩⟩, fun _ => ⟨⟨⟨"", ⟨⟨""⟩, ""⟩⟩⟩⟩⟩ =
      ⟨[], .error (.typeError "Object.keys of undefined")⟩ :=
  ⟨Or.inl rfl,
   gate_reads_issue_only_typeError _ _ _ (Or.inl rfl)⟩

/-- Claim C3, counterexample: with an empty assignee set the code
skips at the eligibility gate BEFORE parsing the URL, so a malformed
project-url (`"https://example.com/x"`) produces a successful skip and
no invalid-URL error — refuting "URL parsing happens before the
eligibility gate, so this holds regardless of the triggering item's
assignee set". -/
theorem badUrl_after_gate_counterexample :
    updateIssueStatus ⟨"https://example.com/x", "tok", "In Progress", "Todo"⟩
        ⟨some ⟨5, "NID5", some []⟩, none, some "acme"⟩
        ⟨fun _ _ _ => ⟨none, none⟩, ⟨⟨[]⟩⟩, fun _ => ⟨⟨⟨"", ⟨⟨""⟩, ""⟩⟩⟩⟩⟩ =
      ⟨[], .ok (.skippedAssigned (some 5))⟩ := by
  decide

/-- Claim C3 as amended: URL parsing happens after the eligibility
gate; for every invocation that passes the gate (issue present with a
non-empty assignee list), a project-url that the pattern does not
match fails with the invalid-project-URL error carrying the offending
input, and no network call is attempted. -/
theorem badUrl_fails_without_network (cfg : Config) (payload : Payload) (env : Env)
    (i : IssueRecord) (aList : List String)
    (hi : payload.issue = some i) (ha : i.assignees = some aList) (hne : aList ≠ [])
    (hurl : urlParseMatch cfg.projectUrl = none) :
    updateIssueStatus cfg payload env =
      ⟨[], .error (.invalidProjectUrl cfg.projectUrl)⟩ := by
  rw [updateIssueStatus_proceeds cfg payload env i aList hi ha hne,
    afterGate_badUrl cfg (some i) env hurl]

/-- Witness for amended C3 at the spec's scenario-3 URL (wrong host),
with one assignee so the gate is passed. -/
theorem badUrl_fails_without_network_witness :
    urlParseMatch "https://gitlab.com/orgs/acme/projects/7" = none ∧
    updateIssueStatus ⟨"https://gitlab.com/orgs/acme/projects/7", "tok", "In Progress", "Todo"⟩
        ⟨some ⟨5, "NID5", some ["alice"]⟩, none, some "acme"⟩
        ⟨fun _ _ _ => ⟨none, none⟩, ⟨⟨[]⟩⟩, fun _ => ⟨⟨⟨"", ⟨⟨""⟩, ""⟩⟩⟩⟩⟩ =
      ⟨[], .error (.invalidProjectUrl "https://gitlab.com/orgs/acme/projects/7")⟩ :=
  ⟨by decide,
   badUrl_fails_without_network _ _ _ ⟨5, "NID5", some ["alice"]⟩ ["alice"]
     rfl rfl (by decide) (by decide)⟩

/-- Claim C8, counterexample: with the gate passed, a valid URL and a
status query response whose node list is empty, the invocation fails
with the generic TypeError raised by reading `fieldValueByName` of
`undefined` (`nodes[0]`); the code has no dedicated
MissingProjectItemError (no such error exists among its error sites),
refuting "fails explicitly with MissingProjectItemError rather than
... failing with a generic error". -/
theorem emptyNodes_generic_typeError_counterexample :
    updateIssueStatus ⟨"https://github.com/orgs/acme/projects/7", "tok", "In Progress", "Todo"⟩
        ⟨some ⟨5, "NID5", some ["alice"]⟩, none, some "acme"⟩
        ⟨fun _ _ _ => ⟨some ⟨⟨"PID"⟩⟩, none⟩, ⟨⟨[]⟩⟩, fun _ => ⟨⟨⟨"", ⟨⟨""⟩, ""⟩⟩⟩⟩⟩ =
      ⟨[.projectIdQuery "organization" "acme" 7, .statusQuery],
       .error (.typeError "cannot read fieldValueByName of undefined")⟩ := by
  decide

/-- Claim C8 as amended: when the status-field query returns no linked
project item (empty node list), the invocation does not silently
proceed — it fails — but the failure is the generic TypeError from
accessing a property of `undefined`, not a dedicated
MissingProjectItemError (which does not exist in the code). -/
theorem emptyNodes_fails_with_typeError (cfg : Config) (payload : Payload) (env : Env)
    (i : IssueRecord) (aList : List String) (g : UrlGroups) (q : String)
    (hi : payload.issue = some i) (ha : i.assignees = some aList) (hne : aList ≠ [])
    (hurl : urlParseMatch cfg.projectUrl = some g)
    (hq : mustGetOwnerTypeQuery (some g.ownerType) = .ok q)
    (hn : env.issueResp.projectItems.nodes = []) :
    updateIssueStatus cfg payload env =
      ⟨[Call.projectIdQuery q g.ownerName (parseIntDec g.projectNumber), .statusQuery],
       .error (.typeError "cannot read fieldValueByName of undefined")⟩ := by
  rw [updateIssueStatus_proceeds cfg payload env i aList hi ha hne,
    afterGate_noNode cfg (some i) env g q hurl hq (by rw [hn]; rfl)]

/-- Witness for amended C8 at a concrete run with an empty node
list. -/
theorem emptyNodes_fails_with_typeError_witness :
    urlParseMatch "github.com/users/jdoe/projects/3" = some ⟨"users", "jdoe", "3"⟩ ∧
    updateIssueStatus ⟨"github.com/users/jdoe/projects/3", "tok", "In Progress", "Todo"⟩
        ⟨some ⟨9, "NID9", some ["carol"]⟩, none, some "jdoe"⟩
        ⟨fun _ _ _ => ⟨none, some ⟨⟨"PID"⟩⟩⟩, ⟨⟨[]⟩⟩, fun _ => ⟨⟨⟨"", ⟨⟨""⟩, ""⟩⟩⟩⟩⟩ =
      ⟨[.projectIdQuery "user" "jdoe" 3, .statusQuery],
       .error (.typeError "cannot read fieldValueByName of undefined")⟩ :=
  ⟨by decide,
   emptyNodes_fails_with_typeError _ _ _ ⟨9, "NID9", some ["carol"]⟩ ["carol"]
     ⟨"users", "jdoe", "3"⟩ "user" rfl rfl (by decide) (by decide) (by decide) rfl⟩

/-- Claim C1: at the spec's end-to-end scenario 4 — current status
"Todo", open-status "Todo", new-status "In Progress", an assignee so
the code's gate is passed — the mutation IS invoked, but its value
slot carries `issueStatus` = "Todo" (the current status read back from
the board), not the configured new-status "In Progress"; the
`new-status` input is read at source line 55 and never used.  The
output is set from the name in the mutation response, as the spec
says. -/
theorem mutation_sends_current_status_not_new :
    (updateIssueStatus ⟨"https://github.com/orgs/acme/projects/7", "tok", "In Progress", "Todo"⟩
        ⟨some ⟨5, "NID5", some ["alice"]⟩, none, some "acme"⟩
        ⟨fun _ _ _ => ⟨some ⟨⟨"PID"⟩⟩, none⟩,
         ⟨⟨[⟨⟨⟨"F1"⟩, "Todo"⟩⟩]⟩⟩,
         fun _ => ⟨⟨⟨"ITEM", ⟨⟨"F1"⟩, "In Progress"⟩⟩⟩⟩⟩) =
      ⟨[.projectIdQuery "organization" "acme" 7, .statusQuery,
        .mutation ⟨"F1", some "NID5", some "PID", "Todo"⟩],
       .ok (.output "In Progress")⟩ ∧
    ("Todo" : String) ≠ "In Progress" := by
  decide

/-- Claim C2: the code's eligibility gate has the opposite polarity of
the claim.  With an EMPTY assignee set it skips successfully (logging
"already assigned", contradicting its own message and the comment
"Ensure the issue is not already assigned"); with a NON-empty set it
proceeds past the gate — shown by reaching the URL-parse error on a
malformed project-url instead of aborting successfully. -/
theorem assignee_gate_inverted :
    (updateIssueStatus ⟨"https://example.com/x", "tok", "In Progress", "Todo"⟩
        ⟨some ⟨4, "NID4", some []⟩, none, none⟩
        ⟨fun _ _ _ => ⟨none, none⟩, ⟨⟨[]⟩⟩, fun _ => ⟨⟨⟨"", ⟨⟨""⟩, ""⟩⟩⟩⟩⟩ =
      ⟨[], .ok (.skippedAssigned (some 4))⟩) ∧
    ((updateIssueStatus ⟨"https://example.com/x", "tok", "In Progress", "Todo"⟩
        ⟨some ⟨4, "NID4", some ["alice"]⟩, none, none⟩
        ⟨fun _ _ _ => ⟨none, none⟩, ⟨⟨[]⟩⟩, fun _ => ⟨⟨⟨"", ⟨⟨""⟩, ""⟩⟩⟩⟩⟩).result =
      .error (.invalidProjectUrl "https://example.com/x")) := by
  decide

/-- Claim C4, counterexample: `https://github.com/orgs/acme/projects/0`
matches the pattern, and its project number parses to 0, which is not
a positive integer. -/
theorem urlParse_zero_not_positive_counterexample :
    urlParseMatch "https://github.com/orgs/acme/projects/0" = some ⟨"orgs", "acme", "0"⟩ ∧
    parseIntDec "0" = 0 ∧ ¬ 0 < parseIntDec "0" := by
  decide

/-- Claim C4 as amended: for every URL built from the documented
pattern `[https://]github.com/(orgs|users)/<ownerName>/<projects>/<digits>`
(owner name non-empty without `/`, a non-empty digit run), the parser
extracts exactly the owner-type, owner-name and project-number
substrings, the project number parsing as a decimal natural number —
positive whenever the digit run is nonzero, but possibly 0; the two
example URLs parse as the claim states. -/
theorem urlParse_extracts_groups (scheme : Bool) (tok name ds : String)
    (htok : tok = "orgs" ∨ tok = "users")
    (hname : name.data ≠ [])
    (hnameSlash : ∀ c ∈ name.data, c ≠ '/')
    (hds : ds.data ≠ [])
    (hdsDigit : ∀ c ∈ ds.data, c.isDigit = true) :
    urlParseMatch ((if scheme then "https://" else "") ++ "github.com/" ++ tok ++ "/" ++ name ++ "/projects/" ++ ds) =
      some ⟨tok, name, ds⟩ ∧
    (urlParseMatch "https://github.com/orgs/acme/projects/7" = some ⟨"orgs", "acme", "7"⟩ ∧
      parseIntDec "7" = 7) ∧
    (urlParseMatch "github.com/users/jdoe/projects/3" = some ⟨"users", "jdoe", "3"⟩ ∧
      parseIntDec "3" = 3) := by
  refine ⟨?_, by decide, by decide⟩
  have h := urlParseMatch_complete scheme tok name ds "" htok hname hnameSlash hds hdsDigit
  rw [String.append_empty] at h
  have hlist : ds.data ++ List.takeWhile Char.isDigit ("" : String).data = ds.data := by
    rw [show List.takeWhile Char.isDigit ("" : String).data = [] from rfl, List.append_nil]
  rw [hlist] at h
  exact h

/-- Witness for amended C4 at scheme-less `github.com/users/jdoe/projects/3`. -/
theorem urlParse_extracts_groups_witness :
    (("users" : String) = "orgs" ∨ ("users" : String) = "users") ∧
    urlParseMatch "github.com/users/jdoe/projects/3" = some ⟨"users", "jdoe", "3"⟩ :=
  ⟨Or.inr rfl,
   (urlParse_extracts_groups false "users" "jdoe" "3" (Or.inr rfl) (by decide) (by decide)
     (by decide) (by decide)).1⟩

/-- Claim C10: the regex has no end anchor — any string that begins
with a well-formed prefix parses, with the `projectNumber` capture the
maximal leading digit run after `/projects/` (the declared digit run
`ds` extended by the leading digits of the trailing text); and the
digit run may be `"0"`, which parses to project number 0 rather than a
positive integer. -/
theorem urlParse_start_anchored_only (scheme : Bool) (tok name ds trail : String)
    (htok : tok = "orgs" ∨ tok = "users")
    (hname : name.data ≠ [])
    (hnameSlash : ∀ c ∈ name.data, c ≠ '/')
    (hds : ds.data ≠ [])
    (hdsDigit : ∀ c ∈ ds.data, c.isDigit = true) :
    urlParseMatch ((if scheme then "https://" else "") ++ "github.com/" ++ tok ++ "/" ++ name ++ "/projects/" ++ ds ++ trail) =
      some ⟨tok, name, String.mk (ds.data ++ trail.data.takeWhile Char.isDigit)⟩ ∧
    urlParseMatch "github.com/orgs/acme/projects/0/views/2" = some ⟨"orgs", "acme", "0"⟩ ∧
    parseIntDec "0" = 0 :=
  ⟨urlParseMatch_complete scheme tok name ds trail htok hname hnameSlash hds hdsDigit,
   by decide, by decide⟩

/-- Witness for C10: trailing `/views/9` after the number is accepted
and ignored. -/
theorem urlParse_start_anchored_only_witness :
    (("orgs" : String) = "orgs" ∨ ("orgs" : String) = "users") ∧
    urlParseMatch "https://github.com/orgs/acme/projects/7/views/9" = some ⟨"orgs", "acme", "7"⟩ :=
  ⟨Or.inl rfl,
   (urlParse_start_anchored_only true "orgs" "acme" "7" "/views/9" (Or.inl rfl) (by decide)
     (by decide) (by decide) (by decide)).1⟩

/-- Claim C5: with the invocation past the assignee gate, the URL
parsed and the status read, a resolved status name differing from the
configured open-status (exact, case-sensitive string comparison) makes
the workflow abort successfully with the skip outcome carrying the
item's number — only the two read calls, no mutation, no output; an
equal status name makes it proceed to exactly the mutation call. -/
theorem open_status_gate (cfg : Config) (payload : Payload) (env : Env)
    (i : IssueRecord) (aList : List String) (g : UrlGroups) (q : String) (node : ProjectItemNode)
    (hi : payload.issue = some i) (ha : i.assignees = some aList) (hne : aList ≠ [])
    (hurl : urlParseMatch cfg.projectUrl = some g)
    (hq : mustGetOwnerTypeQuery (some g.ownerType) = .ok q)
    (hn : env.issueResp.projectItems.nodes.head? = some node) :
    (node.fieldValueByName.name ≠ cfg.openStatus →
      updateIssueStatus cfg payload env =
        ⟨[Call.projectIdQuery q g.ownerName (parseIntDec g.projectNumber), .statusQuery],
         .ok (.skippedNotOpen (some i.number))⟩) ∧
    (node.fieldValueByName.name = cfg.openStatus →
      (updateIssueStatus cfg payload env).calls =
        [Call.projectIdQuery q g.ownerName (parseIntDec g.projectNumber), .statusQuery,
         .mutation (mutArgs (some i) env q g node)]) := by
  constructor
  · intro hs
    rw [updateIssueStatus_proceeds cfg payload env i aList hi ha hne,
      afterGate_skipNotOpen cfg (some i) env g q node hurl hq hn hs]
    rfl
  · intro hs
    rw [updateIssueStatus_proceeds cfg payload env i aList hi ha hne,
      afterGate_mutates cfg (some i) env g q node hurl hq hn hs]

/-- Witness for C5 at the spec's scenario 5: status "Done", open-status
"Todo" — skip, no mutation, no output. -/
theorem open_status_gate_witness :
    ("Done" : String) ≠ "Todo" ∧
    updateIssueStatus ⟨"https://github.com/orgs/acme/projects/7", "tok", "In Progress", "Todo"⟩
        ⟨some ⟨5, "NID5", some ["alice"]⟩, none, some "acme"⟩
        ⟨fun _ _ _ => ⟨some ⟨⟨"PID"⟩⟩, none⟩, ⟨⟨[⟨⟨⟨"F1"⟩, "Done"⟩⟩]⟩⟩,
         fun _ => ⟨⟨⟨"", ⟨⟨""⟩, ""⟩⟩⟩⟩⟩ =
      ⟨[.projectIdQuery "organization" "acme" 7, .statusQuery],
       .ok (.skippedNotOpen (some 5))⟩ :=
  ⟨by decide,
   (open_status_gate ⟨"https://github.com/orgs/acme/projects/7", "tok", "In Progress", "Todo"⟩
     ⟨some ⟨5, "NID5", some ["alice"]⟩, none, some "acme"⟩
     ⟨fun _ _ _ => ⟨some ⟨⟨"PID"⟩⟩, none⟩, ⟨⟨[⟨⟨⟨"F1"⟩, "Done"⟩⟩]⟩⟩,
      fun _ => ⟨⟨⟨"", ⟨⟨""⟩, ""⟩⟩⟩⟩⟩
     ⟨5, "NID5", some ["alice"]⟩ ["alice"] ⟨"orgs", "acme", "7"⟩
     "organization" ⟨⟨⟨"F1"⟩, "Done"⟩⟩ rfl rfl (by decide) (by decide) (by decide) rfl).1
     (by decide)⟩

/-- Claim C6: whenever a mutation call appears in an invocation's
trace, the trace is exactly one project-id query, one status query and
that single mutation, and the mutation's variables are precisely the
identifiers resolved in the same invocation: `fieldId` and the value
from the first node of this run's status query response, `projectId`
from this run's project-id query response under the resolved
owner-type key, and `contentId` from the triggering item's node id in
the event context. -/
theorem mutation_uses_fresh_ids (cfg : Config) (payload : Payload) (env : Env) (input : MutInput)
    (h : Call.mutation input ∈ (updateIssueStatus cfg payload env).calls) :
    ∃ q g node,
      (updateIssueStatus cfg payload env).calls =
        [Call.projectIdQuery q g.ownerName (parseIntDec g.projectNumber), .statusQuery,
         .mutation input] ∧
      urlParseMatch cfg.projectUrl = some g ∧
      mustGetOwnerTypeQuery (some g.ownerType) = .ok q ∧
      env.issueResp.projectItems.nodes.head? = some node ∧
      input.fieldId = node.fieldValueByName.field.databaseId ∧
      input.issueStatus = node.fieldValueByName.name ∧
      input.projectId = (ProjectNodeIDResponse.get
          (env.idResp q g.ownerName (parseIntDec g.projectNumber)) q).map (fun p => p.projectV2.id) ∧
      input.contentId = (payload.issue <|> payload.pull_request).map IssueRecord.node_id := by
  cases hb : payload.issue.bind IssueRecord.assignees with
  | none =>
    rw [updateIssueStatus_typeErr cfg payload env hb] at h
    simp at h
  | some aList =>
    obtain ⟨i, hi, ha⟩ := Option.bind_eq_some.mp hb
    by_cases hlen : aList = []
    · subst hlen
      rw [updateIssueStatus_skipsEmpty cfg payload env i hi ha] at h
      simp at h
    · have hrun := updateIssueStatus_proceeds cfg payload env i aList hi ha hlen
      have hiss : (payload.issue <|> payload.pull_request) = some i := by
        rw [hi]
        rfl
      cases hurl : urlParseMatch cfg.projectUrl with
      | none =>
        rw [hrun, afterGate_badUrl cfg (some i) env hurl] at h
        simp at h
      | some g =>
        cases hq : mustGetOwnerTypeQuery (some g.ownerType) with
        | error e =>
          rw [hrun, afterGate_badOwner cfg (some i) env g e hurl hq] at h
          simp at h
        | ok q =>
          cases hn : env.issueResp.projectItems.nodes.head? with
          | none =>
            rw [hrun, afterGate_noNode cfg (some i) env g q hurl hq hn] at h
            simp at h
          | some node =>
            by_cases hs : node.fieldValueByName.name = cfg.openStatus
            · have hmut := afterGate_mutates cfg (some i) env g q node hurl hq hn hs
              rw [hrun, hmut] at h
              have hinput : input = mutArgs (some i) env q g node := by
                simp at h
                exact h
              refine ⟨q, g, node, ?_, rfl, hq, rfl, ?_, ?_, ?_, ?_⟩
              · rw [hrun, hmut, hinput]
              · rw [hinput]
                rfl
              · rw [hinput]
                rfl
              · rw [hinput]
                rfl
              · rw [hinput, hiss]
                rfl
            · rw [hrun, afterGate_skipNotOpen cfg (some i) env g q node hurl hq hn hs] at h
              simp at h

/-- Witness for C6 at a concrete run that reaches the mutation. -/
theorem mutation_uses_fresh_ids_witness :
    Call.mutation ⟨"F2", some "N8", some "P8", "Open"⟩ ∈
      (updateIssueStatus ⟨"https://github.com/orgs/beta/projects/8", "tok", "Doing", "Open"⟩
        ⟨some ⟨8, "N8", some ["dave"]⟩, none, some "beta"⟩
        ⟨fun _ _ _ => ⟨some ⟨⟨"P8"⟩⟩, none⟩, ⟨⟨[⟨⟨⟨"F2"⟩, "Open"⟩⟩]⟩⟩,
         fun _ => ⟨⟨⟨"IT", ⟨⟨"F2"⟩, "Doing"⟩⟩⟩⟩⟩).calls ∧
    (∃ q g node,
      (updateIssueStatus ⟨"https://github.com/orgs/beta/projects/8", "tok", "Doing", "Open"⟩
        ⟨some ⟨8, "N8", some ["dave"]⟩, none, some "beta"⟩
        ⟨fun _ _ _ => ⟨some ⟨⟨"P8"⟩⟩, none⟩, ⟨⟨[⟨⟨⟨"F2"⟩, "Open"⟩⟩]⟩⟩,
         fun _ => ⟨⟨⟨"IT", ⟨⟨"F2"⟩, "Doing"⟩⟩⟩⟩⟩).calls =
        [Call.projectIdQuery q g.ownerName (parseIntDec g.projectNumber), .statusQuery,
         .mutation ⟨"F2", some "N8", some "P8", "Open"⟩] ∧
      urlParseMatch "https://github.com/orgs/beta/projects/8" = some g ∧
      mustGetOwnerTypeQuery (some g.ownerType) = .ok q ∧
      (⟨⟨[⟨⟨⟨"F2"⟩, "Open"⟩⟩]⟩⟩ : IssueStatusResponse).projectItems.nodes.head? = some node ∧
      (⟨"F2", some "N8", some "P8", "Open"⟩ : MutInput).fieldId = node.fieldValueByName.field.databaseId ∧
      (⟨"F2", some "N8", some "P8", "Open"⟩ : MutInput).issueStatus = node.fieldValueByName.name ∧
      (⟨"F2", some "N8", some "P8", "Open"⟩ : MutInput).projectId = (ProjectNodeIDResponse.get
          (⟨some ⟨⟨"P8"⟩⟩, none⟩ : ProjectNodeIDResponse) q).map (fun p => p.projectV2.id) ∧
      (⟨"F2", some "N8", some "P8", "Open"⟩ : MutInput).contentId =
        ((some ⟨8, "N8", some ["dave"]⟩ : Option IssueRecord) <|> none).map IssueRecord.node_id) :=
  ⟨by decide, mutation_uses_fresh_ids _ _ _ _ (by decide)⟩
